import Mathlib

/-!
Verification of the synthtable orchestration core: a shallow embedding of the
network path resolver (src/get_processing_job.rs), the identity lifecycle
manager (src/manage_iam.rs), the job execution monitor
(src/progress_tracker.rs, src/get_processing_job.rs) and the policy templating
helpers (src/get_glue_data.rs, src/manage_iam.rs), together with theorems
settling the specification claims about them.

Rust machine integers that matter here (`available_ip_address_count`) are
modelled as `Nat`; the code only compares them with `> 0`.  Rust `String`
operations are modelled on `List Char` so that every definition reduces in the
kernel; `str::to_lowercase` is modelled as ASCII lowercasing (all inputs
appearing in the claims are ASCII).
-/

/-! ## String helpers (models of the Rust `str` methods used by the sources) -/

/-- ASCII lowercasing of one character; model of what `str::to_lowercase` does
on the ASCII inputs used by the program. -/
def lowerChar (c : Char) : Char :=
  if 65 ≤ c.toNat ∧ c.toNat ≤ 90 then Char.ofNat (c.toNat + 32) else c

/-- Model of Rust `str::to_lowercase` (ASCII fragment). -/
def lowerStr (s : String) : String :=
  ⟨s.data.map lowerChar⟩

/-- Boolean prefix test on character lists. -/
def isPrefixList (p l : List Char) : Bool :=
  match p, l with
  | [], _ => true
  | _ :: _, [] => false
  | a :: ps, b :: ls => a == b && isPrefixList ps ls

/-- Model of Rust `str::contains(needle)`: substring occurrence test. -/
def containsSub (hay needle : List Char) : Bool :=
  match hay with
  | [] => needle.isEmpty
  | _ :: t => isPrefixList needle hay || containsSub t needle

/-- String version of `containsSub`. -/
def strContainsSub (hay needle : String) : Bool :=
  containsSub hay.data needle.data

/-- Fuel-indexed worker for `replaceStr`; the fuel is an upper bound on the
number of characters still to be scanned, so with fuel `s.length` it performs
the full left-to-right non-overlapping replacement that Rust
`str::replace` performs. -/
def replaceAux (fuel : Nat) (s pat repl : List Char) : List Char :=
  match fuel with
  | 0 => s
  | fuel + 1 =>
    match s with
    | [] => []
    | c :: rest =>
      if !pat.isEmpty && isPrefixList pat (c :: rest) then
        repl ++ replaceAux fuel ((c :: rest).drop pat.length) pat repl
      else
        c :: replaceAux fuel rest pat repl

/-- Model of Rust `str::replace(pat, repl)` (all non-overlapping occurrences,
scanned left to right). -/
def replaceStr (s pat repl : String) : String :=
  ⟨replaceAux s.data.length s.data pat.data repl.data⟩

/-- Fuel-indexed worker for `splitStr`; `cur` is the piece accumulated since
the last separator. -/
def splitAux (fuel : Nat) (s pat cur : List Char) : List (List Char) :=
  match fuel with
  | 0 => [cur ++ s]
  | fuel + 1 =>
    match s with
    | [] => [cur]
    | c :: rest =>
      if !pat.isEmpty && isPrefixList pat (c :: rest) then
        cur :: splitAux fuel ((c :: rest).drop pat.length) pat []
      else
        splitAux fuel rest pat (cur ++ [c])

/-- Model of Rust `str::split(pat)` collected into a vector (non-overlapping,
left to right, empty pieces kept). -/
def splitStr (s pat : String) : List String :=
  (splitAux (s.data.length + 1) s.data pat.data []).map (fun l => ⟨l⟩)

/-- Model of Rust `str::trim_end_matches(|c| c == '/')`. -/
def trimEndSlashes (s : String) : String :=
  ⟨(s.data.reverse.dropWhile (fun c => c = '/')).reverse⟩

/-- Fixed project name (src/lib.rs line 17). -/
def PROJECT_NAME : String := "SynthTable"

/-! ## Network topology model and the path resolver

Shallow embedding of `get_subnet_list` (src/get_processing_job.rs lines
55-171).  The AWS describe calls become lookups in a `NetworkTopology`
snapshot; each filter in the Rust iterator chains is kept as written. -/

/-- One subnet record as read by `describe_subnets`. -/
structure Subnet where
  subnetId : String
  vpcId : String
  mapPublicIpOnLaunch : Bool
  availableIpAddressCount : Nat
deriving DecidableEq, Repr

/-- One NAT gateway record as read by `describe_nat_gateways`. -/
structure NatGateway where
  natGatewayId : String
  vpcId : String
deriving DecidableEq, Repr

/-- One route of a route table; `natGatewayId` is `none` for routes that do
not target a NAT gateway. -/
structure NetRoute where
  natGatewayId : Option String
deriving DecidableEq, Repr

/-- One route table record as read by `describe_route_tables`. -/
structure RouteTable where
  routeTableId : String
  associatedSubnetIds : List String
  routes : List NetRoute
deriving DecidableEq, Repr

/-- A region's network topology snapshot. -/
structure NetworkTopology where
  vpcIds : List String
  subnets : List Subnet
  natGateways : List NatGateway
  routeTables : List RouteTable
deriving DecidableEq, Repr

/-- `describe_subnets` filtered by vpc-id, then the private/capacity filter and
the projection to subnet ids (src/get_processing_job.rs lines 73-87). -/
def privateSubnetIds (t : NetworkTopology) (vpc : String) : List String :=
  (t.subnets.filter (fun s =>
    s.vpcId == vpc && !s.mapPublicIpOnLaunch &&
      decide (0 < s.availableIpAddressCount))).map (fun s => s.subnetId)

/-- `describe_nat_gateways` filtered by vpc-id, projected to ids
(src/get_processing_job.rs lines 88-98). -/
def natGwIds (t : NetworkTopology) (vpc : String) : List String :=
  (t.natGateways.filter (fun n => n.vpcId == vpc)).map (fun n => n.natGatewayId)

/-- `describe_route_tables` filtered by association.subnet-id, projected to
route table ids (src/get_processing_job.rs lines 104-122). -/
def routeTableIdsForSubnet (t : NetworkTopology) (subnetId : String) : List String :=
  (t.routeTables.filter (fun rt => rt.associatedSubnetIds.contains subnetId)).map
    (fun rt => rt.routeTableId)

/-- `describe_route_tables` by route-table id; each returned table is projected
to the NAT-gateway ids of its routes (src/get_processing_job.rs lines
126-146). -/
def routeNatRefs (t : NetworkTopology) (rtId : String) : List (List String) :=
  (t.routeTables.filter (fun rt => rt.routeTableId == rtId)).map
    (fun rt => rt.routes.filterMap (fun r => r.natGatewayId))

/-- The resolver `get_subnet_list` (src/get_processing_job.rs lines 55-171):
for each vpc, if it has private subnets with capacity and NAT gateways, then
for each such subnet, each associated route table, each route-table lookup
result and each of the vpc's NAT gateways contained in that result, one
`(vpc, subnet)` pair is pushed. -/
def getSubnetList (t : NetworkTopology) : List (String × String) :=
  t.vpcIds.flatMap (fun vpc =>
    let ps := privateSubnetIds t vpc
    let ngs := natGwIds t vpc
    if 0 < ps.length ∧ 0 < ngs.length then
      ps.flatMap (fun subnetId =>
        (routeTableIdsForSubnet t subnetId).flatMap (fun rtId =>
          (routeNatRefs t rtId).flatMap (fun natRefs =>
            ngs.filterMap (fun ng =>
              if natRefs.contains ng then some (vpc, subnetId) else none))))
    else [])

/-- The final empty check of `get_subnet_list` (src/get_processing_job.rs lines
162-169): on an empty candidate list the program prints an error and exits. -/
def getSubnetListChecked (t : NetworkTopology) : Except String (List (String × String)) :=
  let l := getSubnetList t
  if l.length = 0 then .error "No suitable subnets found" else .ok l

/-- Modelled from the spec, claim C1's wording: a subnet is eligible iff it is
private, has available address capacity, belongs to a network with at least one
NAT gateway, and one of its associated route tables has a route whose
NAT-gateway id belongs to that same network. -/
def SpecEligible (t : NetworkTopology) (v sid : String) : Prop :=
  v ∈ t.vpcIds ∧
  (∃ s ∈ t.subnets, s.subnetId = sid ∧ s.vpcId = v ∧
    s.mapPublicIpOnLaunch = false ∧ 0 < s.availableIpAddressCount) ∧
  (∃ ng ∈ t.natGateways, ng.vpcId = v) ∧
  (∃ rt ∈ t.routeTables, sid ∈ rt.associatedSubnetIds ∧
    ∃ r ∈ rt.routes, ∃ gid, r.natGatewayId = some gid ∧
      ∃ ng ∈ t.natGateways, ng.vpcId = v ∧ ng.natGatewayId = gid)

/-! ## Glue table model and policy templating

Embedding of `GlueTable::s3_arn` (src/get_glue_data.rs lines 80-85) and
`generate_policy_docs` (src/manage_iam.rs lines 231-257).  The policy template
files live outside src/ (an `include_dir!` of src/policies), so
`generatePolicyDocs` takes the template list as a parameter. -/

/-- Glue database record (src/get_glue_data.rs lines 42-46). -/
structure GlueDatabase where
  region : String
  name : String
  accountId : String
deriving DecidableEq, Repr

/-- Glue table record (src/get_glue_data.rs lines 50-54). -/
structure GlueTable where
  database : GlueDatabase
  name : String
  s3Location : String
deriving DecidableEq, Repr

/-- `GlueTable::s3_arn` (src/get_glue_data.rs lines 80-85): rewrite the
`s3://` scheme to the ARN form and strip trailing slashes. -/
def GlueTable.s3Arn (gt : GlueTable) : String :=
  trimEndSlashes (replaceStr gt.s3Location "s3://" "arn:aws:s3:::")

/-- The bucket-name derivation used in `generate_policy_docs`
(src/manage_iam.rs lines 242-252): split the ARN on the literal ":::", take
the second piece, split it on "/", take the first piece.  The Rust code
unwraps; `none` models the panicking path. -/
def bucketFromArn (arn : String) : Option String := do
  let afterColons ← (splitStr arn ":::").get? 1
  (splitStr afterColons "/").get? 0

/-- One template substitution step of `generate_policy_docs`
(src/manage_iam.rs lines 235-252). -/
def substitutePolicy (gt : GlueTable) (doc : String) : String :=
  let d1 := replaceStr doc "<your region>" gt.database.region
  let d2 := replaceStr d1 "<your account>" gt.database.accountId
  let d3 := replaceStr d2 "<your database>" gt.database.name
  let d4 := replaceStr d3 "<your table>" gt.name
  let d5 := replaceStr d4 "<your project>" PROJECT_NAME
  let d6 := replaceStr d5 "<your s3arn>" gt.s3Arn
  replaceStr d6 "<your bucket>" ((bucketFromArn gt.s3Arn).getD "")

/-- `generate_policy_docs` (src/manage_iam.rs lines 231-257), parametrised by
the policy template files (name stem, contents). -/
def generatePolicyDocs (templates : List (String × String))
    (gt : GlueTable) : List (String × String) :=
  templates.map (fun f => (PROJECT_NAME ++ f.1, substitutePolicy gt f.2))

/-! ## Job monitor classification

Embedding of `JobState` and `ProgressTracker::update_progress`
(src/progress_tracker.rs lines 16-20 and 82-114). -/

/-- `JobState` (src/progress_tracker.rs lines 16-20). -/
inductive JobState where
  | Running
  | Completed
  | Failed
deriving DecidableEq, Repr

/-- The fields of `ProgressTracker` that `update_progress` reads or writes. -/
structure TrackerState where
  databaseName : String
  tableName : String
  state : JobState
  message : String
deriving DecidableEq, Repr

/-- The progress message of the Running branch (src/progress_tracker.rs lines
104-107); the last log line is embedded verbatim at the end. -/
def runningMessage (databaseName tableName lastLogLine : String) : String :=
  "Generating synthetic data for " ++ databaseName ++ "." ++ tableName ++
    ": \n \t \t " ++ lastLogLine

/-- `ProgressTracker::update_progress` (src/progress_tracker.rs lines 82-114)
given the last CloudWatch log line: lowercase equality with "done" (no
trimming in the source) yields Completed, otherwise a lowercase substring
"failed" yields Failed, otherwise the state is unchanged and the message is
set from the log line.  Returns the reported state and the updated tracker. -/
def updateProgress (t : TrackerState) (lastLogLine : String) : JobState × TrackerState :=
  if lowerStr lastLogLine == "done" then
    let t2 := { t with state := JobState.Completed }
    (t2.state, t2)
  else if strContainsSub (lowerStr lastLogLine) "failed" then
    let t2 := { t with state := JobState.Failed }
    (t2.state, t2)
  else
    let t2 := { t with message := runningMessage t.databaseName t.tableName lastLogLine }
    (t2.state, t2)

/-- A tracker as built by `ProgressTracker::new` (src/progress_tracker.rs lines
35-70): initial state Running, seeded message. -/
def initialTracker (databaseName tableName : String) : TrackerState :=
  { databaseName := databaseName
    tableName := tableName
    state := JobState.Running
    message := "Starting Synthetic Data Generation Job ..." }

/-! ## Identity lifecycle model

Embedding of src/manage_iam.rs.  The externally observable IAM state is a
record; each mutating control-plane call is a state transition.  Existence
reads (`is_role_exists`, `is_instance_profile_exists`, `list_role_policies`)
are reads of the corresponding fields.  The eventual-consistency poll loops do
not mutate state and are modelled separately (see the poll-loop section). -/

/-- Externally observable IAM state for the fixed project-named role and
instance profile. -/
structure IamState where
  roleExists : Bool
  inlinePolicies : List String
  managedPolicyAttached : Bool
  profileExists : Bool
  roleInProfile : Bool
deriving DecidableEq, Repr

/-- The mutating IAM control-plane calls issued by src/manage_iam.rs. -/
inductive IamCall where
  | detachManagedPolicy
  | deleteRolePolicy (name : String)
  | removeRoleFromInstanceProfile
  | deleteInstanceProfile
  | deleteRole
  | createRole
  | createInstanceProfile
  | addRoleToInstanceProfile
  | putRolePolicy (name : String)
deriving DecidableEq, Repr

/-- Effect of one mutating call on the IAM state. -/
def applyCall (s : IamState) : IamCall → IamState
  | .detachManagedPolicy => { s with managedPolicyAttached := false }
  | .deleteRolePolicy n =>
      { s with inlinePolicies := s.inlinePolicies.filter (fun p => !(p == n)) }
  | .removeRoleFromInstanceProfile => { s with roleInProfile := false }
  | .deleteInstanceProfile => { s with profileExists := false }
  | .deleteRole => { s with roleExists := false }
  | .createRole => { s with roleExists := true }
  | .createInstanceProfile => { s with profileExists := true }
  | .addRoleToInstanceProfile => { s with roleInProfile := true }
  | .putRolePolicy n => { s with inlinePolicies := s.inlinePolicies ++ [n] }

/-- Run a sequence of calls from a state. -/
def runCalls (s : IamState) (cs : List IamCall) : IamState :=
  cs.foldl applyCall s

/-- Pair every call of a sequence with the state in which it is issued. -/
def traceStates (s : IamState) : List IamCall → List (IamCall × IamState)
  | [] => []
  | c :: rest => (c, s) :: traceStates (applyCall s c) rest

/-- Mutating calls of `remove_all_policies_role` (src/manage_iam.rs lines
261-292): detach the fixed managed policy, then delete every inline policy
returned by `list_role_policies` (the policies present when the function
runs; the detach call does not change them). -/
def removeAllPoliciesRoleCalls (s : IamState) : List IamCall :=
  IamCall.detachManagedPolicy :: s.inlinePolicies.map IamCall.deleteRolePolicy

/-- Mutating calls of `cleanup_aim` (src/manage_iam.rs lines 295-311): only
when `is_role_exists` reads true does it remove the policies, then, only when
`is_instance_profile_exists` reads true, detach the role from the profile and
delete the profile, and finally delete the role. -/
def cleanupAimCalls (s : IamState) : List IamCall :=
  if s.roleExists then
    removeAllPoliciesRoleCalls s ++
      (if s.profileExists then
        [IamCall.removeRoleFromInstanceProfile, IamCall.deleteInstanceProfile]
      else []) ++
      [IamCall.deleteRole]
  else []

/-- State transformer of `cleanup_aim`. -/
def cleanupAim (s : IamState) : IamState :=
  runCalls s (cleanupAimCalls s)

/-- The call-with-state trace of one `cleanup_aim` run. -/
def cleanupTrace (s : IamState) : List (IamCall × IamState) :=
  traceStates s (cleanupAimCalls s)

/-- The clean IAM state: no role, no inline policies, no instance profile. -/
def cleanIamState : IamState :=
  { roleExists := false
    inlinePolicies := []
    managedPolicyAttached := false
    profileExists := false
    roleInProfile := false }

/-! ## Provision step sequence

Embedding of the call order of `create_instance_profile`
(src/manage_iam.rs lines 61-91), `add_role_to_instance_profile` (lines
189-200), `create_ec2_role` (lines 127-164) and `add_policies_to_role` (lines
170-187), with the poll loops and the fixed settling delay kept as explicit
steps. -/

/-- One step of the provision sequence, in the order the source issues them. -/
inductive ProvisionStep where
  | callCreateInstanceProfile
  | pollUntilInstanceProfileVisible
  | settlingDelay (secs : Nat)
  | callCreateRole
  | pollUntilRoleVisible
  | callAddRoleToInstanceProfile
  | callPutRolePolicy (name : String)
deriving DecidableEq, Repr

/-- Steps of `create_ec2_role` (src/manage_iam.rs lines 127-164): create the
role, then poll until `is_role_exists` reads true. -/
def createEc2RoleSteps : List ProvisionStep :=
  [ProvisionStep.callCreateRole, ProvisionStep.pollUntilRoleVisible]

/-- Steps of `add_role_to_instance_profile` (src/manage_iam.rs lines 189-200):
it first calls `create_ec2_role`, then issues the attach call. -/
def addRoleToInstanceProfileSteps : List ProvisionStep :=
  createEc2RoleSteps ++ [ProvisionStep.callAddRoleToInstanceProfile]

/-- Steps of `add_policies_to_role` (src/manage_iam.rs lines 170-187): one
`put_role_policy` per generated policy document. -/
def addPoliciesToRoleSteps (policyNames : List String) : List ProvisionStep :=
  policyNames.map ProvisionStep.callPutRolePolicy

/-- Steps of `create_instance_profile` (src/manage_iam.rs lines 61-91): create
the instance profile, poll until visible, sleep 30 seconds, then
`add_role_to_instance_profile` (which itself creates the role first), then
`add_policies_to_role`. -/
def createInstanceProfileSteps (policyNames : List String) : List ProvisionStep :=
  [ProvisionStep.callCreateInstanceProfile,
   ProvisionStep.pollUntilInstanceProfileVisible,
   ProvisionStep.settlingDelay 30] ++
    addRoleToInstanceProfileSteps ++ addPoliciesToRoleSteps policyNames

/-! ## Poll-loop guards

Each reconciliation loop in src/manage_iam.rs is a `while guard { sleep 1s }`
whose guard is an existence read.  `pollLoopExit` runs such a loop against a
finite sequence of read results: it returns the read on which the loop exits,
or `none` if every supplied read keeps it looping. -/

/-- Guard of the loop in `delete_instance_profile` (src/manage_iam.rs line
54): keep looping while `is_instance_profile_exists` reads true. -/
def deleteInstanceProfileLoopContinues (profileVisible : Bool) : Bool :=
  profileVisible

/-- Guard of the loop in `create_ec2_role` (src/manage_iam.rs line 156) and in
`create_instance_profile` (line 74): keep looping while the existence read is
false. -/
def createLoopContinues (visible : Bool) : Bool :=
  !visible

/-- Guard of the loop in `delete_role` (src/manage_iam.rs line 117): the
source keeps looping while `is_role_exists` reads FALSE. -/
def deleteRoleLoopContinues (roleVisible : Bool) : Bool :=
  !roleVisible

/-- Run a poll loop against a finite sequence of existence reads; `some r`
means the loop exited and `r` was the read that made the guard false. -/
def pollLoopExit (continues : Bool → Bool) : List Bool → Option Bool
  | [] => none
  | r :: rs => if continues r then pollLoopExit continues rs else some r

/-! ## Monitor terminal actions and the job result

Embedding of the terminal-state handling of `run_sythetic_data_job`
(src/get_processing_job.rs lines 320-372). -/

/-- The externally visible actions the monitor loop can take on a poll tick
in which the instance is running. -/
inductive MonitorAction where
  | terminateInstance
  | cleanupIam
  | printSuccess
  | printFailure
deriving DecidableEq, Repr

/-- Actions taken on the `JobState` returned by `update_progress`
(src/get_processing_job.rs lines 329-359): Completed terminates the instance,
cleans up IAM and reports success; Running does nothing; Failed only reports
failure (the terminate call is commented out and there is no cleanup call). -/
def monitorTerminalActions : JobState → List MonitorAction
  | JobState.Completed =>
      [MonitorAction.terminateInstance, MonitorAction.cleanupIam,
       MonitorAction.printSuccess]
  | JobState.Running => []
  | JobState.Failed => [MonitorAction.printFailure]

/-- Whether the monitor loop breaks on that `JobState`
(src/get_processing_job.rs lines 329-359). -/
def monitorBreaks : JobState → Bool
  | JobState.Completed => true
  | JobState.Running => false
  | JobState.Failed => true

/-- The three ways the monitor loop of `run_sythetic_data_job` can end: job
completed, job failed, or the instance entered an unexpected power state. -/
inductive RunOutcome where
  | completed
  | failed
  | unknownPowerState
deriving DecidableEq, Repr

/-- The Rust return value of `run_sythetic_data_job` as a function of how its
loop ended (src/get_processing_job.rs lines 320-372): every exit path falls
through to `Ok(())`. -/
def runSytheticDataJobResult : RunOutcome → Except String Unit
  | RunOutcome.completed => Except.ok ()
  | RunOutcome.failed => Except.ok ()
  | RunOutcome.unknownPowerState => Except.ok ()

/-! ## Concrete example inputs -/

/-- The end-to-end scenario topology of the spec: one vpc with one private
subnet (capacity 5), one NAT gateway and a route table associated with the
subnet routing to that NAT gateway. -/
def exTopology : NetworkTopology :=
  { vpcIds := ["vpc-1"]
    subnets := [{ subnetId := "sub-1", vpcId := "vpc-1", mapPublicIpOnLaunch := false,
                  availableIpAddressCount := 5 }]
    natGateways := [{ natGatewayId := "nat-1", vpcId := "vpc-1" }]
    routeTables := [{ routeTableId := "rtb-1", associatedSubnetIds := ["sub-1"],
                      routes := [{ natGatewayId := some "nat-1" }] }] }

/-- A topology whose single subnet has one route table routing to two NAT
gateways of its own vpc. -/
def dupTopology : NetworkTopology :=
  { vpcIds := ["vpc-1"]
    subnets := [{ subnetId := "sub-1", vpcId := "vpc-1", mapPublicIpOnLaunch := false,
                  availableIpAddressCount := 5 }]
    natGateways := [{ natGatewayId := "nat-1", vpcId := "vpc-1" },
                    { natGatewayId := "nat-2", vpcId := "vpc-1" }]
    routeTables := [{ routeTableId := "rtb-1", associatedSubnetIds := ["sub-1"],
                      routes := [{ natGatewayId := some "nat-1" },
                                 { natGatewayId := some "nat-2" }] }] }

/-- A glue table whose storage location is the spec's example
`s3://bucket/prefix/`. -/
def exTable : GlueTable :=
  { database := { region := "us-east-1", name := "db", accountId := "123456789012" }
    name := "tbl"
    s3Location := "s3://bucket/prefix/" }

/-- An IAM state with an orphaned instance profile: no role, but the instance
profile still exists (reachable, because `create_instance_profile` creates the
profile before the role exists, so an interruption strands the profile). -/
def orphanProfileState : IamState :=
  { roleExists := false
    inlinePolicies := []
    managedPolicyAttached := false
    profileExists := true
    roleInProfile := false }

/-! ## Claim theorems -/

/-- Helper: the state reported by `update_progress` as a conditional on the
log line. -/
theorem updateProgress_fst (t : TrackerState) (s : String) :
    (updateProgress t s).1 =
      if lowerStr s == "done" then JobState.Completed
      else if strContainsSub (lowerStr s) "failed" then JobState.Failed
      else t.state := by
  unfold updateProgress
  cases hb : lowerStr s == "done" <;>
    cases hc : strContainsSub (lowerStr s) "failed" <;> simp [hb, hc]

/-- C2 counterexample: the status text "DONE " (trailing space) does NOT drive
the monitor to Completed — `update_progress` compares the lowercased line to
"done" without trimming, so the tracker stays Running. -/
theorem update_progress_trailing_space_counterexample :
    (updateProgress (initialTracker "db" "tbl") "DONE ").1 = JobState.Running ∧
    (updateProgress (initialTracker "db" "tbl") "DONE ").1 ≠ JobState.Completed := by
  decide

/-- C2 (amended): the single-poll classification is: Completed iff the text
lowercases to exactly "done" (no trimming, so "done" and "Done" qualify but
"DONE " with a trailing space stays Running); otherwise Failed iff the
lowercased text contains "failed"; otherwise the state stays Running and the
text is embedded verbatim in the progress message. -/
theorem update_progress_classification :
    (∀ s : String,
      (updateProgress (initialTracker "db" "tbl") s).1 = JobState.Completed ↔
        lowerStr s = "done") ∧
    (∀ s : String,
      (updateProgress (initialTracker "db" "tbl") s).1 = JobState.Failed ↔
        (lowerStr s ≠ "done" ∧ strContainsSub (lowerStr s) "failed" = true)) ∧
    (updateProgress (initialTracker "db" "tbl") "done").1 = JobState.Completed ∧
    (updateProgress (initialTracker "db" "tbl") "Done").1 = JobState.Completed ∧
    (updateProgress (initialTracker "db" "tbl") "DONE ").1 = JobState.Running ∧
    (updateProgress (initialTracker "db" "tbl") "job failed: disk full").1 = JobState.Failed ∧
    (updateProgress (initialTracker "db" "tbl") "50% complete").1 = JobState.Running ∧
    (updateProgress (initialTracker "db" "tbl") "50% complete").2.message =
      runningMessage "db" "tbl" "50% complete" ∧
    strContainsSub ((updateProgress (initialTracker "db" "tbl") "50% complete").2.message)
      "50% complete" = true := by
  refine ⟨?_, ?_, by decide, by decide, by decide, by decide, by decide, by decide, by decide⟩
  · intro s
    rw [updateProgress_fst]
    cases hb : lowerStr s == "done" <;>
      cases hc : strContainsSub (lowerStr s) "failed" <;>
        simp_all [initialTracker, beq_iff_eq]
  · intro s
    rw [updateProgress_fst]
    cases hb : lowerStr s == "done" <;>
      cases hc : strContainsSub (lowerStr s) "failed" <;>
        simp_all [initialTracker, beq_iff_eq]

/-- C5: the reconciliation loop of `delete_role` polls in the WRONG direction:
its guard keeps looping while the role is absent, so if the loop ever exits,
the last existence read reported the role as still present — on a consistent
control plane where the deleted role stays absent, the loop never exits.  The
create loops and the `delete_instance_profile` loop poll in the matching
directions. -/
theorem delete_role_poll_direction_inverted :
    (∀ reads : List Bool, ∀ r : Bool,
      pollLoopExit deleteRoleLoopContinues reads = some r → r = true) ∧
    pollLoopExit deleteRoleLoopContinues [false, false, false] = none ∧
    deleteRoleLoopContinues false = true ∧
    deleteInstanceProfileLoopContinues false = false ∧
    deleteInstanceProfileLoopContinues true = true ∧
    createLoopContinues false = true ∧
    createLoopContinues true = false := by
  refine ⟨?_, by decide, by decide, by decide, by decide, by decide, by decide⟩
  intro reads
  induction reads with
  | nil => intro r h; simp [pollLoopExit] at h
  | cons a t ih =>
    intro r h
    cases a with
    | true =>
      simp [pollLoopExit, deleteRoleLoopContinues] at h
      exact h
    | false =>
      simp [pollLoopExit, deleteRoleLoopContinues] at h
      exact ih r h

/-- C5 witness: a read sequence on which the `delete_role` loop exits; the
exit read reports the role as present. -/
theorem delete_role_poll_direction_inverted_witness :
    pollLoopExit deleteRoleLoopContinues [false, true] = some true ∧ (true : Bool) = true :=
  ⟨by decide, delete_role_poll_direction_inverted.1 [false, true] true (by decide)⟩

/-- C6 counterexample: in the provision sequence the create-instance-profile
call comes strictly before the create-role call, refuting the claimed order
(role first). -/
theorem provision_order_counterexample :
    (createInstanceProfileSteps []).indexOf ProvisionStep.callCreateInstanceProfile <
      (createInstanceProfileSteps []).indexOf ProvisionStep.callCreateRole ∧
    ¬ ((createInstanceProfileSteps []).indexOf ProvisionStep.callCreateRole <
      (createInstanceProfileSteps []).indexOf ProvisionStep.callCreateInstanceProfile) := by
  decide

/-- C6 (amended): the provision sequence is: create the instance profile, poll
until it is visible, fixed 30-second settling delay, create the role, poll
until the role is visible, attach the role to the instance profile, then
attach the templated inline policies; the instance profile is created and
confirmed visible before the role is created. -/
theorem provision_step_sequence (policyNames : List String) :
    createInstanceProfileSteps policyNames =
      [ProvisionStep.callCreateInstanceProfile,
       ProvisionStep.pollUntilInstanceProfileVisible,
       ProvisionStep.settlingDelay 30,
       ProvisionStep.callCreateRole,
       ProvisionStep.pollUntilRoleVisible,
       ProvisionStep.callAddRoleToInstanceProfile] ++
        policyNames.map ProvisionStep.callPutRolePolicy := by
  rfl

/-- C7 counterexample: on the Failed state the monitor does NOT run identity
teardown — the only action of the Failed branch is the failure report. -/
theorem failed_state_no_teardown_counterexample :
    MonitorAction.cleanupIam ∉ monitorTerminalActions JobState.Failed ∧
    monitorTerminalActions JobState.Failed = [MonitorAction.printFailure] := by
  decide

/-- C7 (amended): on Completed the monitor terminates the instance, tears down
the identity and reports success; on Failed it only reports failure and breaks
out of the loop — the instance is left running AND the identity is left in
place (no teardown on the Failed path). -/
theorem monitor_terminal_action_sequence :
    monitorTerminalActions JobState.Completed =
      [MonitorAction.terminateInstance, MonitorAction.cleanupIam,
       MonitorAction.printSuccess] ∧
    monitorTerminalActions JobState.Failed = [MonitorAction.printFailure] ∧
    MonitorAction.terminateInstance ∉ monitorTerminalActions JobState.Failed ∧
    MonitorAction.cleanupIam ∉ monitorTerminalActions JobState.Failed ∧
    monitorBreaks JobState.Completed = true ∧
    monitorBreaks JobState.Failed = true ∧
    monitorBreaks JobState.Running = false := by
  decide

/-- C8: for the table stored at `s3://bucket/prefix/`, the templated storage
ARN is `arn:aws:s3:::bucket/prefix` (scheme rewritten, trailing slash
stripped), the derived bucket name — the ARN segment between ":::" and the
first "/" — is `bucket`, and `generate_policy_docs` substitutes both into the
policy templates. -/
theorem s3_arn_and_bucket_templating :
    exTable.s3Arn = "arn:aws:s3:::bucket/prefix" ∧
    bucketFromArn exTable.s3Arn = some "bucket" ∧
    generatePolicyDocs [("S3Policy", "resource <your s3arn> bucket <your bucket>")] exTable =
      [("SynthTableS3Policy", "resource arn:aws:s3:::bucket/prefix bucket bucket")] := by
  decide

/-- C9: `run_sythetic_data_job` returns the same success value `Ok(())` for a
failed job and for an unknown power state as for a completed run — the result
type does not distinguish the terminal outcomes, contradicting the function's
own doc comment ("Returns an error if the job fails"). -/
theorem run_job_result_indistinguishable :
    runSytheticDataJobResult RunOutcome.failed = Except.ok () ∧
    runSytheticDataJobResult RunOutcome.unknownPowerState = Except.ok () ∧
    runSytheticDataJobResult RunOutcome.failed =
      runSytheticDataJobResult RunOutcome.completed ∧
    runSytheticDataJobResult RunOutcome.unknownPowerState =
      runSytheticDataJobResult RunOutcome.completed :=
  ⟨rfl, rfl, rfl, rfl⟩

/-- C10: the resolver output is not deduplicated: a subnet whose route table
routes to two NAT gateways of its own vpc appears twice in the returned
list. -/
theorem get_subnet_list_duplicates :
    getSubnetList dupTopology = [("vpc-1", "sub-1"), ("vpc-1", "sub-1")] ∧
    ¬ (getSubnetList dupTopology).Nodup := by
  decide

/-! ## IAM helper lemmas -/

/-- Running an appended call sequence composes. -/
theorem runCalls_append (s : IamState) (l₁ l₂ : List IamCall) :
    runCalls s (l₁ ++ l₂) = runCalls (runCalls s l₁) l₂ :=
  List.foldl_append applyCall s l₁ l₂

/-- The trace of an appended call sequence splits at the intermediate state. -/
theorem traceStates_append (s : IamState) (l₁ l₂ : List IamCall) :
    traceStates s (l₁ ++ l₂) =
      traceStates s l₁ ++ traceStates (runCalls s l₁) l₂ := by
  induction l₁ generalizing s with
  | nil => simp [traceStates, runCalls]
  | cons c t ih => simp [traceStates, ih, runCalls]

/-- A call appearing in a trace appears in the call sequence. -/
theorem mem_traceStates_call {c : IamCall} {st s : IamState} {l : List IamCall} :
    (c, st) ∈ traceStates s l → c ∈ l := by
  induction l generalizing s with
  | nil => simp [traceStates]
  | cons a t ih =>
    intro h
    simp only [traceStates, List.mem_cons, Prod.mk.injEq] at h
    rcases h with ⟨h1, _⟩ | h
    · exact h1 ▸ List.mem_cons_self a t
    · exact List.mem_cons_of_mem a (ih h)

/-- Deleting, one by one, every inline policy of a list that covers the
currently attached ones leaves no inline policy attached. -/
theorem runCalls_deleteRolePolicies (l : List String) :
    ∀ st : IamState, (∀ x ∈ st.inlinePolicies, x ∈ l) →
      (runCalls st (l.map IamCall.deleteRolePolicy)).inlinePolicies = [] := by
  induction l with
  | nil =>
    intro st h
    simp only [List.map_nil, runCalls, List.foldl_nil]
    exact List.eq_nil_iff_forall_not_mem.mpr (fun a ha => by simpa using h a ha)
  | cons n t ih =>
    intro st h
    have hstep :
        runCalls st (IamCall.deleteRolePolicy n :: t.map IamCall.deleteRolePolicy) =
          runCalls (applyCall st (IamCall.deleteRolePolicy n))
            (t.map IamCall.deleteRolePolicy) := rfl
    simp only [List.map_cons, hstep]
    apply ih
    intro x hx
    simp only [applyCall, List.mem_filter, Bool.not_eq_true', beq_eq_false_iff_ne] at hx
    rcases List.mem_cons.mp (h x hx.1) with heq | hmem
    · exact absurd heq hx.2
    · exact hmem

/-- C3 counterexample: from a state with an orphaned instance profile (no
role, profile still present), `cleanup_aim` makes no calls — the profile
survives every repeated teardown, so teardown does NOT converge to the state
where nothing exists. -/
theorem cleanup_aim_orphan_profile_counterexample :
    cleanupAim orphanProfileState = orphanProfileState ∧
    (cleanupAim orphanProfileState).profileExists = true ∧
    cleanupAimCalls orphanProfileState = [] := by
  decide

/-- C3 (amended): teardown on a clean state makes no mutating identity calls
and leaves the state unchanged, so two successive teardowns on a clean state
change nothing; from every starting state teardown is idempotent (the second
call issues no mutating calls) and its fixed point has no role — but an
instance profile present without the role is left untouched, so the
convergence point is role-free rather than fully empty. -/
theorem cleanup_aim_idempotent :
    (cleanupAimCalls cleanIamState = [] ∧ cleanupAim cleanIamState = cleanIamState) ∧
    (∀ s : IamState,
      (cleanupAim s).roleExists = false ∧
      cleanupAimCalls (cleanupAim s) = [] ∧
      cleanupAim (cleanupAim s) = cleanupAim s) := by
  refine ⟨⟨by decide, by decide⟩, ?_⟩
  intro s
  have hrole : (cleanupAim s).roleExists = false := by
    by_cases hr : s.roleExists = true
    · unfold cleanupAim cleanupAimCalls
      rw [if_pos hr, runCalls_append]
      simp [runCalls, applyCall]
    · unfold cleanupAim cleanupAimCalls
      rw [if_neg hr]
      simpa [runCalls] using hr
  have hcalls : cleanupAimCalls (cleanupAim s) = [] := by
    unfold cleanupAimCalls
    rw [if_neg]
    simp [hrole]
  refine ⟨hrole, hcalls, ?_⟩
  show runCalls (cleanupAim s) (cleanupAimCalls (cleanupAim s)) = cleanupAim s
  rw [hcalls]
  rfl

/-- C4: in every `cleanup_aim` run, the delete-role call is only ever issued
in a state with no inline policy attached, and the delete-instance-profile
call only in a state where the role is detached from the profile; moreover
the mutating calls always follow the order: detach managed policy, delete the
inline policies, detach role from profile, delete profile, delete role (steps
being skipped when their existence check fails). -/
theorem cleanup_aim_deletion_order (s : IamState) :
    (∀ c st, (c, st) ∈ cleanupTrace s →
      (c = IamCall.deleteRole → st.inlinePolicies = []) ∧
      (c = IamCall.deleteInstanceProfile → st.roleInProfile = false)) ∧
    List.Sublist (cleanupAimCalls s)
      (IamCall.detachManagedPolicy ::
        (s.inlinePolicies.map IamCall.deleteRolePolicy ++
          [IamCall.removeRoleFromInstanceProfile, IamCall.deleteInstanceProfile,
           IamCall.deleteRole])) := by
  constructor
  · intro c st hmem
    unfold cleanupTrace cleanupAimCalls at hmem
    by_cases hr : s.roleExists = true
    · rw [if_pos hr] at hmem
      rw [traceStates_append, traceStates_append] at hmem
      have hpol1 :
          (runCalls s (removeAllPoliciesRoleCalls s)).inlinePolicies = [] := by
        unfold removeAllPoliciesRoleCalls
        have hstep :
            runCalls s
              (IamCall.detachManagedPolicy ::
                s.inlinePolicies.map IamCall.deleteRolePolicy) =
              runCalls (applyCall s IamCall.detachManagedPolicy)
                (s.inlinePolicies.map IamCall.deleteRolePolicy) := rfl
        rw [hstep]
        exact runCalls_deleteRolePolicies s.inlinePolicies _ (fun x hx => hx)
      rcases List.mem_append.mp hmem with hmem' | hlast
      · rcases List.mem_append.mp hmem' with hA | hB
        · have hc := mem_traceStates_call hA
          unfold removeAllPoliciesRoleCalls at hc
          rcases List.mem_cons.mp hc with heq | hmap
          · subst heq
            exact ⟨(fun h => by cases h), (fun h => by cases h)⟩
          · rcases List.mem_map.mp hmap with ⟨n, _, heq⟩
            subst heq
            exact ⟨(fun h => by cases h), (fun h => by cases h)⟩
        · by_cases hp : s.profileExists = true
          · rw [if_pos hp] at hB
            simp only [traceStates, List.mem_cons, List.not_mem_nil, or_false,
              Prod.mk.injEq] at hB
            rcases hB with ⟨hc, _⟩ | ⟨hc, hst⟩
            · subst hc
              exact ⟨(fun h => by cases h), (fun h => by cases h)⟩
            · subst hc
              refine ⟨(fun h => by cases h), fun _ => ?_⟩
              rw [hst]
              rfl
          · rw [if_neg hp] at hB
            simp [traceStates] at hB
      · simp only [traceStates, List.mem_cons, List.not_mem_nil, or_false,
          Prod.mk.injEq] at hlast
        obtain ⟨hc, hst⟩ := hlast
        subst hc
        refine ⟨fun _ => ?_, (fun h => by cases h)⟩
        rw [hst, runCalls_append]
        by_cases hp : s.profileExists = true
        · rw [if_pos hp]
          simpa [runCalls, applyCall] using hpol1
        · rw [if_neg hp]
          simpa [runCalls] using hpol1
    · rw [if_neg hr] at hmem
      simp [traceStates] at hmem
  · unfold cleanupAimCalls
    by_cases hr : s.roleExists = true
    · rw [if_pos hr]
      by_cases hp : s.profileExists = true
      · rw [if_pos hp]
        unfold removeAllPoliciesRoleCalls
        simp only [List.cons_append, List.append_assoc]
        exact List.Sublist.refl _
      · rw [if_neg hp]
        unfold removeAllPoliciesRoleCalls
        simp only [List.cons_append, List.append_assoc, List.nil_append]
        refine List.Sublist.cons₂ _ (List.Sublist.append_left ?_ _)
        exact (((List.Sublist.refl [IamCall.deleteRole]).cons
          IamCall.deleteInstanceProfile).cons IamCall.removeRoleFromInstanceProfile)
    · rw [if_neg hr]
      exact List.nil_sublist _

/-- C4 witness: a fully populated starting state; the delete-role call of its
teardown trace is issued in a state with no inline policies. -/
theorem cleanup_aim_deletion_order_witness :
    (IamCall.deleteRole,
      ({ roleExists := true, inlinePolicies := [], managedPolicyAttached := false,
         profileExists := false, roleInProfile := false } : IamState)) ∈
      cleanupTrace
        { roleExists := true, inlinePolicies := ["a"], managedPolicyAttached := true,
          profileExists := true, roleInProfile := true } ∧
    ({ roleExists := true, inlinePolicies := [], managedPolicyAttached := false,
       profileExists := false, roleInProfile := false } : IamState).inlinePolicies = [] :=
  ⟨by decide,
    ((cleanup_aim_deletion_order
      { roleExists := true, inlinePolicies := ["a"], managedPolicyAttached := true,
        profileExists := true, roleInProfile := true }).1 IamCall.deleteRole
      { roleExists := true, inlinePolicies := [], managedPolicyAttached := false,
        profileExists := false, roleInProfile := false } (by decide)).1 rfl⟩

/-- C1: given distinct route-table ids, a pair `(v, sid)` appears in the
resolver's output iff the subnet is private, has available address capacity,
belongs to vpc `v` (a vpc with at least one NAT gateway), and one of its
associated route tables has a route whose NAT-gateway id belongs to a NAT
gateway of that same vpc; in particular a subnet whose associated route
tables reference only NAT gateways of other vpcs never appears. -/
theorem get_subnet_list_eligibility (t : NetworkTopology)
    (hrt : (t.routeTables.map (fun rt => rt.routeTableId)).Nodup) :
    (∀ v sid : String, (v, sid) ∈ getSubnetList t ↔ SpecEligible t v sid) ∧
    (∀ v sid : String,
      (∀ rt ∈ t.routeTables, sid ∈ rt.associatedSubnetIds →
        ∀ r ∈ rt.routes, ∀ gid : String, r.natGatewayId = some gid →
          ∀ ng ∈ t.natGateways, ng.natGatewayId = gid → ng.vpcId ≠ v) →
      (v, sid) ∉ getSubnetList t) := by
  have main : ∀ v sid : String, (v, sid) ∈ getSubnetList t ↔ SpecEligible t v sid := by
    intro v sid
    constructor
    · intro h
      simp only [getSubnetList, List.mem_flatMap] at h
      obtain ⟨vpc, hvpc, h⟩ := h
      split at h
      case isFalse => simp at h
      case isTrue hguard =>
      simp only [List.mem_flatMap] at h
      obtain ⟨psId, hps, rtId, hrtid, natRefs, hnr, h⟩ := h
      rw [List.mem_filterMap] at h
      obtain ⟨ng, hng, heq⟩ := h
      split at heq
      case isFalse => simp at heq
      case isTrue hcont =>
      rw [Option.some_inj, Prod.mk.injEq] at heq
      obtain ⟨hveq, hsideq⟩ := heq
      subst hveq
      subst hsideq
      -- decompose the subnet membership
      simp only [privateSubnetIds, List.mem_map, List.mem_filter,
        Bool.and_eq_true, beq_iff_eq, Bool.not_eq_true', decide_eq_true_iff] at hps
      obtain ⟨srec, ⟨hsmem, ⟨hsvpc, hspub⟩, hscap⟩, hsid⟩ := hps
      -- decompose the NAT gateway membership
      simp only [natGwIds, List.mem_map, List.mem_filter, beq_iff_eq] at hng
      obtain ⟨ngrec, ⟨hngmem, hngv⟩, hngid⟩ := hng
      -- decompose the associated route table
      simp only [routeTableIdsForSubnet, List.mem_map, List.mem_filter] at hrtid
      obtain ⟨rt1, ⟨hrt1mem, hrt1assoc⟩, hrt1id⟩ := hrtid
      -- decompose the route-table lookup
      simp only [routeNatRefs, List.mem_map, List.mem_filter, beq_iff_eq] at hnr
      obtain ⟨rt2, ⟨hrt2mem, hrt2id⟩, hnatrefs⟩ := hnr
      -- the two route-table fetches return the same table
      have hrteq : rt1 = rt2 :=
        List.inj_on_of_nodup_map hrt hrt1mem hrt2mem (by rw [hrt1id, hrt2id])
      -- the matching NAT route
      have hngmemrefs : ng ∈ natRefs := by
        simpa using hcont
      rw [← hnatrefs] at hngmemrefs
      rw [List.mem_filterMap] at hngmemrefs
      obtain ⟨r, hr, hrgid⟩ := hngmemrefs
      refine ⟨hvpc, ⟨srec, hsmem, hsid, hsvpc, hspub, hscap⟩,
        ⟨ngrec, hngmem, hngv⟩, ⟨rt1, hrt1mem, ?_, r, ?_, ng, hrgid, ngrec, hngmem, hngv, hngid⟩⟩
      · simpa using hrt1assoc
      · rw [hrteq]; exact hr
    · rintro ⟨hv, ⟨srec, hsmem, hsid, hsvpc, hspub, hscap⟩,
        ⟨ngw, hngwmem, hngwv⟩, ⟨rt, hrtmem, hassoc, r, hr, gid, hgid, ngrec, hngmem, hngv, hngid⟩⟩
      have hps : sid ∈ privateSubnetIds t v := by
        simp only [privateSubnetIds, List.mem_map, List.mem_filter,
          Bool.and_eq_true, beq_iff_eq, Bool.not_eq_true', decide_eq_true_iff]
        exact ⟨srec, ⟨hsmem, ⟨hsvpc, hspub⟩, hscap⟩, hsid⟩
      have hng : ngrec.natGatewayId ∈ natGwIds t v := by
        simp only [natGwIds, List.mem_map, List.mem_filter, beq_iff_eq]
        exact ⟨ngrec, ⟨hngmem, hngv⟩, rfl⟩
      simp only [getSubnetList, List.mem_flatMap]
      refine ⟨v, hv, ?_⟩
      rw [if_pos ⟨List.length_pos.mpr (List.ne_nil_of_mem hps),
        List.length_pos.mpr (List.ne_nil_of_mem hng)⟩]
      simp only [List.mem_flatMap]
      refine ⟨sid, hps, rt.routeTableId, ?_, rt.routes.filterMap (fun x => x.natGatewayId), ?_, ?_⟩
      · simp only [routeTableIdsForSubnet, List.mem_map, List.mem_filter]
        exact ⟨rt, ⟨hrtmem, by simpa using hassoc⟩, rfl⟩
      · simp only [routeNatRefs, List.mem_map, List.mem_filter, beq_iff_eq]
        exact ⟨rt, ⟨hrtmem, rfl⟩, rfl⟩
      · rw [List.mem_filterMap]
        refine ⟨ngrec.natGatewayId, hng, ?_⟩
        have hginf : ngrec.natGatewayId ∈ rt.routes.filterMap (fun x => x.natGatewayId) :=
          List.mem_filterMap.mpr ⟨r, hr, by rw [hngid]; exact hgid⟩
        rw [if_pos (by simpa using hginf)]
  refine ⟨main, ?_⟩
  intro v sid hnone hmem
  obtain ⟨_, _, _, ⟨rt, hrtmem, hassoc, r, hr, gid, hgid, ngrec, hngmem, hngv, hngid⟩⟩ :=
    (main v sid).mp hmem
  exact hnone rt hrtmem hassoc r hr gid hgid ngrec hngmem hngid hngv

/-- C1 witness: the spec's end-to-end topology instantiates the eligibility
equivalence, and its single subnet is indeed returned. -/
theorem get_subnet_list_eligibility_witness :
    ((("vpc-1", "sub-1") ∈ getSubnetList exTopology) ↔
      SpecEligible exTopology "vpc-1" "sub-1") ∧
    ("vpc-1", "sub-1") ∈ getSubnetList exTopology :=
  ⟨(get_subnet_list_eligibility exTopology (by decide)).1 "vpc-1" "sub-1", by decide⟩
